import Mathlib

/-!
Verification development for the BYdream dream-analysis service.

The Python sources are shallowly embedded as pure Lean functions:

* external capabilities (OpenAI Whisper, DALL-E, ChatGPT via LangChain,
  the Chroma vector index) are passed in as oracle arguments describing
  the outcome of the corresponding external call;
* Python exceptions become an explicit `Except Err` result, with `Err`
  mirroring the exception classes of `app/utils/exceptions.py`;
* the SQLAlchemy session store becomes an explicit list of session
  records threaded through the route handlers of `app/api/dream_routes.py`.
-/

/-- A parsed JSON value, as produced by LangChain's `JsonOutputParser`
(`app/services/analysis_service.py`). -/
inductive JVal : Type where
  | jnull : JVal
  | jnum : Int → JVal
  | jstr : String → JVal
  | jarr : List JVal → JVal
  | jobj : List (String × JVal) → JVal

/-- A parsed JSON object (a Python dict), the shape of every
language-model reply handled by the service layer. -/
abbrev Jobj := List (String × JVal)

/-- Lookup of a key in a parsed JSON object, mirroring Python dict
indexing (`d[key]` / `d.get(key)`). -/
def jlookup (d : Jobj) (key : String) : Option JVal :=
  match d with
  | [] => none
  | (k, v) :: rest => if k == key then some v else jlookup rest key

/-- Python `str()` of a parsed-JSON value, used when such a value is
interpolated into a prompt f-string.  Only the string case is ever
exercised by the properties below; compound values are rendered with a
one-level bracketed rendering standing in for Python `repr`. -/
def pyReprShallow : JVal → String
  | .jnull => "None"
  | .jnum n => toString n
  | .jstr s => "\x27" ++ s ++ "\x27"
  | .jarr _ => "[...]"
  | .jobj _ => "\x7b...\x7d"

/-- Python `str()` applied to a parsed-JSON value: a string renders as
itself, other values through their `repr`-style rendering. -/
def pyFmtVal : JVal → String
  | .jstr s => s
  | .jnull => "None"
  | .jnum n => toString n
  | .jarr xs => "[" ++ String.intercalate ", " (xs.map pyReprShallow) ++ "]"
  | .jobj kvs =>
      "\x7b" ++
        String.intercalate ", "
          (kvs.map (fun kv => "\x27" ++ kv.1 ++ "\x27: " ++ pyReprShallow kv.2)) ++
      "\x7d"

/-- Python slicing `s[:n]`, as used on the dream text when the pipeline
builds its fallback image prompts (`dream_pipeline.py` lines 35-36). -/
def pySlice (s : String) (n : Nat) : String :=
  String.mk (s.data.take n)

/-- Python `d.get(key, default)` as used at `dream_pipeline.py:35-36`:
the stored value when the key is present (rendered by `str()` when the
string is needed), the default string otherwise. -/
def pyGetPrompt (d : Jobj) (key : String) (default_ : String) : String :=
  match jlookup d key with
  | some v => pyFmtVal v
  | none => default_

/-- Outcome of one call to an external OpenAI capability, as
discriminated by the `except` clauses of the service layer:
success, `openai.APIStatusError` (message and HTTP status),
`openai.APITimeoutError`, or any other exception. -/
inductive CapResult (α : Type) where
  | ok : α → CapResult α
  | apiStatusError : String → Nat → CapResult α
  | apiTimeout : CapResult α
  | otherError : String → CapResult α

/-- The exception taxonomy of `app/utils/exceptions.py`, plus the
route-level catch-all that turns an unhandled exception into an
HTTP 500 (`except Exception` in `app/api/dream_routes.py`). -/
inductive Err where
  | serviceError : String → Err
  | aiModelError : String → Err
  | notFound : String → Err
  | badRequest : String → Err
  | internalError : String → Err
deriving Repr, DecidableEq

/-- `AudioService.speech_to_text` (`app/services/audio_service.py`):
the Whisper transcription outcome for the supplied audio is given by the
`cap` oracle; API errors become `AIModelException`, other exceptions
`ServiceException`, and a successful reply's text is returned verbatim
(the code performs no emptiness or validity check on the transcript). -/
def speech_to_text (cap : CapResult String) : Except Err String :=
  match cap with
  | .ok t => .ok t
  | .apiStatusError m c =>
      .error (.aiModelError ("OpenAI API error during STT: " ++ m ++ " (Status: " ++ toString c ++ ")"))
  | .apiTimeout => .error (.aiModelError "OpenAI API timeout during STT.")
  | .otherError m => .error (.serviceError ("Failed to convert audio to text: " ++ m))

/-- `ImageService.generate_image` (`app/services/image_service.py`):
the DALL-E call outcome for a given prompt is described by the
`imgCap` oracle; the prompt string is passed to the capability
unchanged, and exceptions map exactly as in the `except` clauses. -/
def generate_image (imgCap : String → CapResult String) (prompt : String) : Except Err String :=
  match imgCap prompt with
  | .ok url => .ok url
  | .apiStatusError m c =>
      .error (.aiModelError ("OpenAI API error during image generation: " ++ m ++ " (Status: " ++ toString c ++ ")"))
  | .apiTimeout => .error (.aiModelError "OpenAI API timeout during image generation.")
  | .otherError m => .error (.serviceError ("Failed to generate image: " ++ m))

/-- The fixed tone qualifier prepended by
`ImageService.generate_healing_image` (`image_service.py:45`), written
there as the f-string `A peaceful, positive, hopeful, and healing
interpretation of: {prompt}`. -/
def healingQualifier : String :=
  "A peaceful, positive, hopeful, and healing interpretation of: "

/-- `ImageService.generate_healing_image` (`image_service.py:40-47`):
prefixes the fixed tone qualifier to the supplied prompt and delegates
to `generate_image`. -/
def generate_healing_image (imgCap : String → CapResult String) (prompt : String) : Except Err String :=
  generate_image imgCap (healingQualifier ++ prompt)

/-- `AnalysisService.analysis_chain` (`analysis_service.py:88-93`): the
retriever supplies the context for the dream text, then the prompt, the
chat model and `JsonOutputParser` run.  The `retrieval` oracle gives the
retriever's outcome on the query (the chunks, or the message of a raised
exception); the `llm` oracle gives, for the dream text and the retrieved
context, the parsed JSON object of the model reply, or the message of
the exception raised by the model call or by JSON parsing. -/
def analysis_chain (retrieval : String → Except String (List String))
    (llm : String → List String → Except String Jobj)
    (dream_text : String) : Except String Jobj :=
  match retrieval dream_text with
  | .error m => .error m
  | .ok context => llm dream_text context

/-- `AnalysisService.analyze_dream` (`analysis_service.py:102-114`):
runs the chain; any exception anywhere in it is caught and re-raised as
`ServiceException("Failed to analyze dream: ...")`. -/
def analyze_dream (retrieval : String → Except String (List String))
    (llm : String → List String → Except String Jobj)
    (dream_text : String) : Except Err Jobj :=
  match analysis_chain retrieval llm dream_text with
  | .ok response => .ok response
  | .error m => .error (.serviceError ("Failed to analyze dream: " ++ m))

/-- `AnalysisService.perform_irt` (`analysis_service.py:116-128`): runs
the IRT chain on the dream text and the analysis dict (which the code
serializes with `json.dumps` before templating; that serialization is
folded into the `irtLlm` oracle); any exception is re-raised as
`ServiceException("Failed to perform IRT analysis: ...")`. -/
def perform_irt (irtLlm : String → Jobj → Except String Jobj)
    (dream_text : String) (analysis_results : Jobj) : Except Err Jobj :=
  match irtLlm dream_text analysis_results with
  | .ok response => .ok response
  | .error m => .error (.serviceError ("Failed to perform IRT analysis: " ++ m))

/-- The fallback original-image prompt of `dream_pipeline.py:35`. -/
def defaultOriginalPrompt (dream_text : String) : String :=
  "A vivid surreal image representing the dream: " ++ pySlice dream_text 100 ++ "..."

/-- The fallback healing-image prompt of `dream_pipeline.py:36`. -/
def defaultHealingPrompt (dream_text : String) : String :=
  "A peaceful, positive and healing image related to the dream: " ++ pySlice dream_text 100 ++ "..."

/-- `DreamPipeline.run_analysis_and_image_stages`
(`app/piplines/dream_pipeline.py:23-46`): analyze the dream text, pull
the two image prompts out of the analysis dict with `.get` (falling back
to default prompts built from the dream text), generate the original
image and then the healing image, and return all three results.  Any
exception raised by a stage propagates; there is no handler here. -/
def run_analysis_and_image_stages (retrieval : String → Except String (List String))
    (llm : String → List String → Except String Jobj)
    (imgCap : String → CapResult String)
    (dream_text : String) : Except Err (Jobj × String × String) :=
  match analyze_dream retrieval llm dream_text with
  | .error e => .error e
  | .ok analysis_results =>
    match generate_image imgCap
        (pyGetPrompt analysis_results "image_prompt_original" (defaultOriginalPrompt dream_text)) with
    | .error e => .error e
    | .ok original_image_url =>
      match generate_healing_image imgCap
          (pyGetPrompt analysis_results "image_prompt_healing" (defaultHealingPrompt dream_text)) with
      | .error e => .error e
      | .ok healing_image_url => .ok (analysis_results, original_image_url, healing_image_url)

/-- `DreamPipeline.run_irt_stage` (`dream_pipeline.py:48-56`): delegates
to `AnalysisService.perform_irt`. -/
def run_irt_stage (irtLlm : String → Jobj → Except String Jobj)
    (dream_text : String) (analysis_results : Jobj) : Except Err Jobj :=
  perform_irt irtLlm dream_text analysis_results

/-- Whether an optional JSON value is a string, as required by the
`str` fields of `DreamAnalysisResult` (`app/schemas/dream_schema.py`). -/
def isStrField : Option JVal → Bool
  | some (.jstr _) => true
  | _ => false

/-- Whether an optional JSON value is a list of strings, as required by
the `keywords: List[str]` field of `DreamAnalysisResult`. -/
def isStrListField : Option JVal → Bool
  | some (.jarr xs) =>
      xs.all (fun v => match v with | .jstr _ => true | _ => false)
  | _ => false

/-- Pydantic validation of `DreamAnalysisResult`
(`app/schemas/dream_schema.py:15-25`): all seven fields present with the
declared shapes.  Extra keys are ignored, as pydantic does by default. -/
def validDreamAnalysisResult (d : Jobj) : Bool :=
  isStrField (jlookup d "summary") &&
  isStrListField (jlookup d "keywords") &&
  isStrField (jlookup d "symbolism_analysis") &&
  isStrField (jlookup d "emotional_context") &&
  isStrField (jlookup d "potential_implications") &&
  isStrField (jlookup d "image_prompt_original") &&
  isStrField (jlookup d "image_prompt_healing")

/-- Pydantic validation of one `IrtRescriptingSuggestion`
(`dream_schema.py:27-33`). -/
def validIrtSuggestion (d : Jobj) : Bool :=
  isStrField (jlookup d "element") &&
  isStrField (jlookup d "original_image") &&
  isStrField (jlookup d "new_image_suggestion")

/-- Whether an optional JSON value is a list of well-formed rescripting
suggestions. -/
def isSuggestionListField : Option JVal → Bool
  | some (.jarr xs) =>
      xs.all (fun v => match v with | .jobj d => validIrtSuggestion d | _ => false)
  | _ => false

/-- Pydantic validation of `IrtAnalysisResult` (`dream_schema.py:35-42`). -/
def validIrtAnalysisResult (d : Jobj) : Bool :=
  isStrField (jlookup d "irt_explanation") &&
  isStrListField (jlookup d "negative_elements_identified") &&
  isSuggestionListField (jlookup d "rescripting_suggestions") &&
  isStrField (jlookup d "actionable_insights")

/-- Modelled from the spec: pydantic's `HttpUrl` check on the two image
URL fields of `DreamAnalysisResponse` is library code outside `src/`;
it is modelled as a scheme check.  No claim depends on its precision. -/
def isHttpUrl (s : String) : Bool :=
  pySlice s 7 == "http://" || pySlice s 8 == "https://"

/-- One `{original, healing}` entry of a session's `generated_images`
list (`dream_routes.py:109`). -/
structure ImagePair where
  original : String
  healing : String

/-- The `DreamSession` record of `app/models/dream_model.py`: the dream
text plus the optional JSON columns `analysis_results`, `irt_results`
and `generated_images` (all nullable, absent until the stage runs). -/
structure DreamSession where
  id : Nat
  dream_text : String
  analysis_results : Option Jobj
  irt_results : Option Jobj
  generated_images : Option (List ImagePair)

/-- The session table, keyed by `DreamSession.id`. -/
abbrev Store := List DreamSession

/-- The `select ... filter(id == session_id)` lookup used by every route
of `app/api/dream_routes.py`. -/
def findSession (store : Store) (sid : Nat) : Option DreamSession :=
  store.find? (fun s => s.id == sid)

/-- Committing a mutated session record: the row with the session's id
is replaced by the new record. -/
def updateSession (store : Store) (s' : DreamSession) : Store :=
  store.map (fun s => if s.id == s'.id then s' else s)

/-- The `DreamAnalysisResponse` payload (`dream_schema.py:44-51`). -/
structure DreamAnalysisResponse where
  session_id : Nat
  analysis_results : Jobj
  generated_image_url : String
  healing_image_url : String

/-- The `IrtAnalysisResponse` payload (`dream_schema.py:53-58`). -/
structure IrtAnalysisResponse where
  session_id : Nat
  irt_results : Jobj

/-- Route `POST /sessions/{id}/analyze`, `analyze_dream_and_generate_image`
(`dream_routes.py:77-126`): look the session up (404 when absent, 400
when its dream text is empty, since `if not session.dream_text` is the
check), run pipeline stages 2-4, then commit the mutated session and only after
the commit build the validated `DreamAnalysisResponse`.  A pipeline
exception propagates with the session untouched; a response-validation
failure after the commit is caught by the route's `except Exception`
catch-all and surfaces as an HTTP 500 (its detail text, which embeds the
pydantic error, is abbreviated here to a fixed message).

The commit persists what SQLAlchemy's unit of work actually flushes for
a plain `Column(JSON)` model (`dream_model.py`, which uses no
`MutableList` and no `flag_modified`): `session.analysis_results` is
assigned, so its overwrite is flushed; `session.generated_images` is
assigned only when it was NULL (`if session.generated_images is None:
session.generated_images = []`), in which case the freshly assigned
list — by then holding the appended pair — is flushed, while on a
session whose column is already non-null the route performs only an
untracked in-place `.append`, which is absent from the flush and then
reverted in memory by `db.refresh`, so the stored list keeps its prior
value. -/
def analyze_dream_and_generate_image (retrieval : String → Except String (List String))
    (llm : String → List String → Except String Jobj)
    (imgCap : String → CapResult String)
    (store : Store) (session_id : Nat) : Store × Except Err DreamAnalysisResponse :=
  match findSession store session_id with
  | none =>
      (store, .error (.notFound ("Session with ID " ++ toString session_id ++ " not found.")))
  | some session =>
    if session.dream_text = "" then
      (store, .error (.badRequest ("Dream text missing for session " ++ toString session_id ++
        ". Please create session with audio first.")))
    else
      match run_analysis_and_image_stages retrieval llm imgCap session.dream_text with
      | .error e => (store, .error e)
      | .ok (analysis_result_dict, generated_image_url, healing_image_url) =>
        (updateSession store
          { session with
            analysis_results := some analysis_result_dict,
            generated_images :=
              match session.generated_images with
              | none =>
                  some [{ original := generated_image_url, healing := healing_image_url }]
              | some prior => some prior },
         if validDreamAnalysisResult analysis_result_dict &&
            isHttpUrl generated_image_url && isHttpUrl healing_image_url then
           .ok { session_id := session_id,
                 analysis_results := analysis_result_dict,
                 generated_image_url := generated_image_url,
                 healing_image_url := healing_image_url }
         else
           .error (.internalError "Internal server error: response validation failed"))

/-- Route `POST /sessions/{id}/irt`, `perform_irt_analysis`
(`dream_routes.py:128-169`): look the session up (404 when absent),
fail with `BadRequestException` when `if not session.analysis_results`
holds (the column is NULL, or holds a falsy empty dict), otherwise run
pipeline stage 5, commit `irt_results` and build the validated
`IrtAnalysisResponse` (validation failure abbreviated as for the
analyze route). -/
def perform_irt_analysis (irtLlm : String → Jobj → Except String Jobj)
    (store : Store) (session_id : Nat) : Store × Except Err IrtAnalysisResponse :=
  match findSession store session_id with
  | none =>
      (store, .error (.notFound ("Session with ID " ++ toString session_id ++ " not found.")))
  | some session =>
    match session.analysis_results with
    | none =>
        (store, .error (.badRequest ("Analysis must be performed for session " ++
          toString session_id ++ " before IRT.")))
    | some analysis =>
      if analysis.isEmpty then
        (store, .error (.badRequest ("Analysis must be performed for session " ++
          toString session_id ++ " before IRT.")))
      else
        match run_irt_stage irtLlm session.dream_text analysis with
        | .error e => (store, .error e)
        | .ok irt_results_dict =>
          (updateSession store { session with irt_results := some irt_results_dict },
           if validIrtAnalysisResult irt_results_dict then
             .ok { session_id := session_id, irt_results := irt_results_dict }
           else
             .error (.internalError "Internal server error: response validation failed"))

/-- The top-k nearest-chunk query of the vector index.  Modelled from
the spec: the similarity search itself lives in Chroma, outside `src/`;
per the spec's retrieval contract it returns the nearest chunks first,
at most `k` of them (`index` lists the corpus chunks nearest-first for
the query at hand). -/
def retrieve (index : List String) (k : Nat) : List String :=
  index.take k

/-- The retriever `k` fixed at `AnalysisService.__init__`
(`analysis_service.py:28`, `search_kwargs` with `k` set to 3). -/
def retriever_k : Nat := 3

/-- The retriever built in `AnalysisService.__init__`: the vector-store
query with the construction-time `k`.  Its output is the `context`
sequence wired into `analysis_chain`. -/
def retrieverOf (index : List String) : List String :=
  retrieve index retriever_k

/-- A well-formed analysis dict with all seven fields of
`DreamAnalysisResult`, echoing the stub of `tests/test_piplines.py`. -/
def fullAnalysisJobj : Jobj :=
  [("summary", JVal.jstr "a joyful flying dream"),
   ("keywords", JVal.jarr [JVal.jstr "sky", JVal.jstr "flying"]),
   ("symbolism_analysis", JVal.jstr "freedom and achievement"),
   ("emotional_context", JVal.jstr "very positive"),
   ("potential_implications", JVal.jstr "a wish for freedom"),
   ("image_prompt_original", JVal.jstr "A person joyfully flying in a surreal blue sky."),
   ("image_prompt_healing", JVal.jstr "A peaceful landscape with a gentle breeze and sun.")]

/-- Language-model stub whose reply parses to the full analysis dict. -/
def stubLlmFull : String → List String → Except String Jobj :=
  fun _ _ => .ok fullAnalysisJobj

/-- Language-model stub whose reply parses to a dict holding only a
summary field, the reply of end-to-end scenario C of the spec. -/
def stubLlmSummaryOnly : String → List String → Except String Jobj :=
  fun _ _ => .ok [("summary", JVal.jstr "x")]

/-- Language-model stub whose call raises. -/
def stubLlmDown : String → List String → Except String Jobj :=
  fun _ _ => .error "model unavailable"

/-- Retriever stub for an empty vector index: an empty chunk list. -/
def stubRetrievalEmpty : String → Except String (List String) :=
  fun _ => .ok []

/-- Retriever stub for an unreachable vector index: the query raises. -/
def stubRetrievalDown : String → Except String (List String) :=
  fun _ => .error "Chroma index unreachable"

/-- Image capability stub that always succeeds with a fixed URL. -/
def stubImgOk : String → CapResult String :=
  fun _ => .ok "http://example.com/img.png"

/-- Image capability stub that echoes the prompt it was given, making
the prompt that reached the capability observable in the result. -/
def stubImgEcho : String → CapResult String :=
  fun p => .ok p

/-- Image capability stub that always fails with a generic exception. -/
def stubImgFail : String → CapResult String :=
  fun _ => .otherError "Image generation failed."

/-- IRT language-model stub that always succeeds with a minimal dict. -/
def stubIrtLlm : String → Jobj → Except String Jobj :=
  fun _ _ => .ok [("irt_explanation", JVal.jstr "irt")]

/-- A fresh session (dream text stored, no stage results yet). -/
def sessFresh1 : DreamSession := ⟨1, "my dream", none, none, none⟩

/-- A store holding only `sessFresh1`. -/
def store1 : Store := [sessFresh1]

/-- A second fresh session. -/
def sessFresh2 : DreamSession := ⟨2, "second dream", none, none, none⟩

/-- A store holding only `sessFresh2`. -/
def store2 : Store := [sessFresh2]

/-- A third fresh session. -/
def sessFresh3 : DreamSession := ⟨3, "third dream", none, none, none⟩

/-- A store holding only `sessFresh3`. -/
def store3 : Store := [sessFresh3]

/-- A previously stored IRT (reframing) result. -/
def priorIrtJobj : Jobj :=
  [("irt_explanation", JVal.jstr "old reframing"),
   ("actionable_insights", JVal.jstr "old insight")]

/-- A previously stored analysis result. -/
def priorAnalysisJobj : Jobj := [("summary", JVal.jstr "old summary")]

/-- A session that has already been interpreted and reframed: analysis,
reframing and one image pair on record. -/
def sessInterpreted4 : DreamSession :=
  ⟨4, "fourth dream", some priorAnalysisJobj, some priorIrtJobj,
    some [⟨"http://example.com/old_o.png", "http://example.com/old_h.png"⟩]⟩

/-- A store holding only `sessInterpreted4`. -/
def store4 : Store := [sessInterpreted4]

/-- A session with no stored analysis, awaiting interpretation. -/
def sessNoAnalysis5 : DreamSession := ⟨5, "fifth dream", none, none, none⟩

/-- A store holding only `sessNoAnalysis5`. -/
def store5 : Store := [sessNoAnalysis5]

/-- The record `sessFresh3` becomes after one fully successful analyze
invocation with the full-reply and fixed-URL stubs: analysis stored and
the first (and, as proved below, only persistable) image pair on
record. -/
def sess3Interpreted : DreamSession :=
  ⟨3, "third dream", some fullAnalysisJobj, none,
    some [⟨"http://example.com/img.png", "http://example.com/img.png"⟩]⟩

/-- Committing a record for a session that was found leaves it findable
and updated: `find?` over the id-keyed replacement returns the new
record. -/
theorem findSession_update (store : Store) (sid : Nat) (s s' : DreamSession)
    (hfind : findSession store sid = some s) (hid : s'.id = s.id) :
    findSession (updateSession store s') sid = some s' := by
  have hsid : s.id = sid := by
    have h := List.find?_some hfind
    simpa using h
  induction store with
  | nil => simp [findSession] at hfind
  | cons hd tl ih =>
    by_cases h : hd.id = sid
    · have hhd : hd = s := by
        simp [findSession, List.find?, h] at hfind
        exact hfind
      subst hhd
      simp [findSession, updateSession, List.find?, hid, h]
    · have h2 : (hd.id == sid) = false := by simp [h]
      have hfind2 : findSession tl sid = some s := by
        simpa [findSession, List.find?, h2] using hfind
      have hupd : (hd.id == s'.id) = false := by
        simp [hid, hsid, h]
      have goal2 := ih hfind2
      simpa [findSession, updateSession, List.find?, h2, hupd] using goal2

/-- C1 counterexample: with the interpretation already computed
(a full seven-field analysis dict) and the original-image call failing,
`run_analysis_and_image_stages` evaluates to just the propagated image
error — the computed interpretation is not part of the failure value
handed to the caller, contrary to the claim that it is still returned. -/
theorem C1_counterexample :
    run_analysis_and_image_stages stubRetrievalEmpty stubLlmFull stubImgFail
        "I flew over the mountains" =
      .error (Err.serviceError "Failed to generate image: Image generation failed.") := rfl

/-- C1 amended: when the interpretation has been computed and either
image-generation call fails, the pipeline fails with the image service's
`AIModelException`/`ServiceException` and only that error reaches the
caller; the already-computed interpretation is discarded, not returned
alongside the failure. -/
theorem C1_image_failure_discards_interpretation
    (retrieval : String → Except String (List String))
    (llm : String → List String → Except String Jobj)
    (imgCap : String → CapResult String) (dt : String) (a : Jobj) (e : Err)
    (ha : analyze_dream retrieval llm dt = .ok a) :
    (generate_image imgCap (pyGetPrompt a "image_prompt_original" (defaultOriginalPrompt dt)) =
        .error e →
      run_analysis_and_image_stages retrieval llm imgCap dt = .error e) ∧
    (∀ u, generate_image imgCap (pyGetPrompt a "image_prompt_original" (defaultOriginalPrompt dt)) =
        .ok u →
      generate_healing_image imgCap (pyGetPrompt a "image_prompt_healing" (defaultHealingPrompt dt)) =
        .error e →
      run_analysis_and_image_stages retrieval llm imgCap dt = .error e) := by
  constructor
  · intro h1
    simp [run_analysis_and_image_stages, ha, h1]
  · intro u h1 h2
    simp [run_analysis_and_image_stages, ha, h1, h2]

/-- C1 witness: the amended theorem applied to concrete stubs in which
the analysis succeeds and the original-image call fails. -/
theorem C1_image_failure_discards_interpretation_witness :
    run_analysis_and_image_stages stubRetrievalEmpty stubLlmFull stubImgFail "a second dream" =
      .error (Err.serviceError "Failed to generate image: Image generation failed.") :=
  (C1_image_failure_discards_interpretation stubRetrievalEmpty stubLlmFull stubImgFail
    "a second dream" fullAnalysisJobj
    (Err.serviceError "Failed to generate image: Image generation failed.") (by rfl)).1 (by rfl)

/-- C2 counterexample: a language-model reply that parses to the object
holding only a summary field does not make the pipeline fail — it
succeeds, returns the partially-filled dict unchanged, and sends the
fabricated default prompts (built from the dream text) to the image
generator, as the echoing image stub makes visible in the URLs. -/
theorem C2_counterexample :
    run_analysis_and_image_stages stubRetrievalEmpty stubLlmSummaryOnly stubImgEcho "a dream" =
      .ok ([("summary", JVal.jstr "x")],
           "A vivid surreal image representing the dream: a dream...",
           healingQualifier ++
             "A peaceful, positive and healing image related to the dream: a dream...") := rfl

/-- C2 amended: the pipeline performs no schema validation on the parsed
reply: a JSON-object reply missing fields is returned as-is, and missing
image-prompt fields are replaced by the deterministic default prompts
derived from the dream text before the image calls are made.  (The full
seven-field schema is enforced only when the boundary builds its
response, after persistence, surfacing as a generic internal error
rather than a typed interpretation error.) -/
theorem C2_missing_fields_accepted_with_defaults
    (retrieval : String → Except String (List String))
    (llm : String → List String → Except String Jobj)
    (imgCap : String → CapResult String) (dt : String) (d : Jobj) (u1 u2 : String)
    (ha : analyze_dream retrieval llm dt = .ok d)
    (ho : jlookup d "image_prompt_original" = none)
    (hh : jlookup d "image_prompt_healing" = none)
    (h1 : generate_image imgCap (defaultOriginalPrompt dt) = .ok u1)
    (h2 : generate_image imgCap (healingQualifier ++ defaultHealingPrompt dt) = .ok u2) :
    run_analysis_and_image_stages retrieval llm imgCap dt = .ok (d, u1, u2) := by
  simp [run_analysis_and_image_stages, ha, pyGetPrompt, ho, hh,
    generate_healing_image, h1, h2]

/-- C2 witness: the amended theorem applied to the summary-only stub. -/
theorem C2_missing_fields_accepted_with_defaults_witness :
    run_analysis_and_image_stages stubRetrievalEmpty stubLlmSummaryOnly stubImgOk "some dream" =
      .ok ([("summary", JVal.jstr "x")], "http://example.com/img.png", "http://example.com/img.png") :=
  C2_missing_fields_accepted_with_defaults stubRetrievalEmpty stubLlmSummaryOnly stubImgOk
    "some dream" [("summary", JVal.jstr "x")] "http://example.com/img.png" "http://example.com/img.png"
    (by rfl) (by rfl) (by rfl) (by rfl) (by rfl)

/-- C4 counterexample: when the speech-to-text capability replies with
the empty transcript, `speech_to_text` returns it as a success — the
code never turns an empty transcript into a failure. -/
theorem C4_counterexample :
    speech_to_text (CapResult.ok "") = .ok "" := rfl

/-- C4 amended: `speech_to_text` returns the capability's transcript
verbatim — empty included — and fails only when the capability call
itself raises: `AIModelException` on API status errors and timeouts,
`ServiceException` on any other exception. -/
theorem C4_transcript_passed_through (t m : String) (c : Nat) :
    speech_to_text (CapResult.ok t) = .ok t ∧
    speech_to_text (CapResult.apiStatusError m c) =
      .error (Err.aiModelError ("OpenAI API error during STT: " ++ m ++ " (Status: " ++ toString c ++ ")")) ∧
    speech_to_text CapResult.apiTimeout =
      .error (Err.aiModelError "OpenAI API timeout during STT.") ∧
    speech_to_text (CapResult.otherError m) =
      .error (Err.serviceError ("Failed to convert audio to text: " ++ m)) :=
  ⟨rfl, rfl, rfl, rfl⟩

/-- C6 counterexample: the tone qualifier the code prepends starts with
a capital letter, so the prompt sent to the image generator is not the
claim's exact lowercase prefix string followed by the healing prompt. -/
theorem C6_counterexample :
    generate_healing_image stubImgEcho "rolling green hills" =
      .ok "A peaceful, positive, hopeful, and healing interpretation of: rolling green hills" ∧
    "A peaceful, positive, hopeful, and healing interpretation of: rolling green hills" ≠
      "a peaceful, positive, hopeful, and healing interpretation of: rolling green hills" :=
  ⟨rfl, by decide⟩

/-- C6 amended: for an interpretation whose `image_prompt_healing` field
holds the string `s`, the healing-image request the pipeline issues is
`generate_image` applied to exactly the fixed qualifier
`A peaceful, positive, hopeful, and healing interpretation of: `
(capital A, as written in `image_service.py:45`) concatenated with `s` —
a pure string transform, no language-model involvement. -/
theorem C6_healing_prompt_is_qualifier_plus_field
    (imgCap : String → CapResult String) (d : Jobj) (dt s : String)
    (h : jlookup d "image_prompt_healing" = some (JVal.jstr s)) :
    generate_healing_image imgCap (pyGetPrompt d "image_prompt_healing" (defaultHealingPrompt dt)) =
      generate_image imgCap (healingQualifier ++ s) := by
  simp [generate_healing_image, pyGetPrompt, h, pyFmtVal]

/-- C6 witness: the amended theorem at the full analysis dict and the
echoing image stub. -/
theorem C6_healing_prompt_is_qualifier_plus_field_witness :
    generate_healing_image stubImgEcho
        (pyGetPrompt fullAnalysisJobj "image_prompt_healing" (defaultHealingPrompt "w")) =
      generate_image stubImgEcho
        (healingQualifier ++ "A peaceful landscape with a gentle breeze and sun.") :=
  C6_healing_prompt_is_qualifier_plus_field stubImgEcho fullAnalysisJobj "w"
    "A peaceful landscape with a gentle breeze and sun." (by rfl)

/-- C10: the retriever built at construction always queries the vector
index with the fixed `k` of 3, so the context sequence it supplies to
the interpretation prompt has length at most 3. -/
theorem C10_retriever_top3 (index : List String) :
    retrieverOf index = retrieve index 3 ∧ (retrieverOf index).length ≤ 3 := by
  refine ⟨rfl, ?_⟩
  simp [retrieverOf, retrieve, retriever_k, List.length_take]

/-- C3: invoking the reframing route on a session that has no stored
analysis result fails with the `BadRequestException` of the
analysis-missing branch, leaves the store untouched, and — being proved
for every `irtLlm` oracle at once, with an outcome mentioning none of
them — shows that no language-model call can influence or occur in this
branch (the handler returns before `run_irt_stage` is reached). -/
theorem C3_reframe_requires_analysis (irtLlm : String → Jobj → Except String Jobj)
    (store : Store) (sid : Nat) (s : DreamSession)
    (hfind : findSession store sid = some s) (hnone : s.analysis_results = none) :
    perform_irt_analysis irtLlm store sid =
      (store, .error (Err.badRequest ("Analysis must be performed for session " ++
        toString sid ++ " before IRT."))) := by
  simp [perform_irt_analysis, hfind, hnone]

/-- C3 witness: the precondition failure at a concrete store holding one
never-interpreted session. -/
theorem C3_reframe_requires_analysis_witness :
    perform_irt_analysis stubIrtLlm store5 5 =
      (store5, .error (Err.badRequest ("Analysis must be performed for session " ++
        toString 5 ++ " before IRT."))) :=
  C3_reframe_requires_analysis stubIrtLlm store5 5 sessNoAnalysis5 (by rfl) (by rfl)

/-- C5 counterexample: on the spec's own scenario C reply (an object
holding only a summary field) the analyze route commits the mutated
session — partially-filled `analysis_results` written, an image pair
appended — and only then fails response validation, so the invocation
fails while the stored record has changed. -/
theorem C5_counterexample :
    analyze_dream_and_generate_image stubRetrievalEmpty stubLlmSummaryOnly stubImgOk store1 1 =
      ([⟨1, "my dream", some [("summary", JVal.jstr "x")], none,
          some [⟨"http://example.com/img.png", "http://example.com/img.png"⟩]⟩],
       .error (Err.internalError "Internal server error: response validation failed")) := rfl

/-- C5 amended: when the pipeline stage itself fails — language-model
error, unparseable reply, or image-generation failure — the route
re-raises before any session mutation, so the store is returned
unchanged with the typed failure; only a response-validation failure
after a successful pipeline run leaves a committed update behind. -/
theorem C5_pipeline_failure_leaves_store
    (retrieval : String → Except String (List String))
    (llm : String → List String → Except String Jobj)
    (imgCap : String → CapResult String)
    (store : Store) (sid : Nat) (s : DreamSession) (e : Err)
    (hfind : findSession store sid = some s) (hne : s.dream_text ≠ "")
    (hrun : run_analysis_and_image_stages retrieval llm imgCap s.dream_text = .error e) :
    analyze_dream_and_generate_image retrieval llm imgCap store sid = (store, .error e) := by
  simp [analyze_dream_and_generate_image, hfind, hne, hrun]

/-- C5 witness: a failing language model leaves the concrete store
unchanged and surfaces the `ServiceException`. -/
theorem C5_pipeline_failure_leaves_store_witness :
    analyze_dream_and_generate_image stubRetrievalEmpty stubLlmDown stubImgOk store2 2 =
      (store2, .error (Err.serviceError "Failed to analyze dream: model unavailable")) :=
  C5_pipeline_failure_leaves_store stubRetrievalEmpty stubLlmDown stubImgOk store2 2 sessFresh2
    (Err.serviceError "Failed to analyze dream: model unavailable")
    (by rfl) (by decide) (by rfl)

/-- C7 counterexample: two fully successful interpret invocations on
the same fresh session (well-formed reply, valid URLs, both responses
`ok`) leave `generated_images` with exactly one entry, not two: the
second run's in-place append to the already non-null JSON column is not
tracked by the ORM and is dropped at flush. -/
theorem C7_counterexample :
    analyze_dream_and_generate_image stubRetrievalEmpty stubLlmFull stubImgOk store3 3 =
      ([sess3Interpreted],
       .ok ⟨3, fullAnalysisJobj, "http://example.com/img.png", "http://example.com/img.png"⟩) ∧
    analyze_dream_and_generate_image stubRetrievalEmpty stubLlmFull stubImgOk [sess3Interpreted] 3 =
      ([sess3Interpreted],
       .ok ⟨3, fullAnalysisJobj, "http://example.com/img.png", "http://example.com/img.png"⟩) ∧
    (sess3Interpreted.generated_images.getD []).length = 1 :=
  ⟨rfl, rfl, rfl⟩

/-- C7 amended: each committed interpret run overwrites the stored
analysis and leaves `dream_text` (and every other field) unchanged, but
only a run that finds `generated_images` NULL durably stores its image
pair — the route's fresh-list assignment is tracked by the ORM, while
an in-place append to an already-populated plain JSON column is not and
is dropped at flush.  So after two successful interpret calls on one
session `generated_images` holds exactly one entry, and its length does
not equal the number of successful interpretation runs. -/
theorem C7_two_successful_runs_one_pair
    (retrieval1 retrieval2 : String → Except String (List String))
    (llm1 llm2 : String → List String → Except String Jobj)
    (imgCap1 imgCap2 : String → CapResult String)
    (store : Store) (sid : Nat) (s : DreamSession)
    (a1 a2 : Jobj) (o1 h1 o2 h2 : String)
    (hfind : findSession store sid = some s)
    (hfresh : s.generated_images = none)
    (hne : s.dream_text ≠ "")
    (hrun1 : run_analysis_and_image_stages retrieval1 llm1 imgCap1 s.dream_text = .ok (a1, o1, h1))
    (hrun2 : run_analysis_and_image_stages retrieval2 llm2 imgCap2 s.dream_text = .ok (a2, o2, h2)) :
    findSession (analyze_dream_and_generate_image retrieval2 llm2 imgCap2
        (analyze_dream_and_generate_image retrieval1 llm1 imgCap1 store sid).1 sid).1 sid =
      some { s with analysis_results := some a2, generated_images := some [⟨o1, h1⟩] } := by
  have h1step : (analyze_dream_and_generate_image retrieval1 llm1 imgCap1 store sid).1 =
      updateSession store { s with
        analysis_results := some a1, generated_images := some [⟨o1, h1⟩] } := by
    simp [analyze_dream_and_generate_image, hfind, hne, hrun1, hfresh]
  have hfind2 : findSession (analyze_dream_and_generate_image retrieval1 llm1 imgCap1 store sid).1 sid =
      some { s with analysis_results := some a1, generated_images := some [⟨o1, h1⟩] } := by
    rw [h1step]
    exact findSession_update store sid s _ hfind rfl
  have h2step : ∀ store1 : Store,
      findSession store1 sid =
        some { s with analysis_results := some a1, generated_images := some [⟨o1, h1⟩] } →
      (analyze_dream_and_generate_image retrieval2 llm2 imgCap2 store1 sid).1 =
        updateSession store1
          { s with analysis_results := some a2, generated_images := some [⟨o1, h1⟩] } := by
    intro store1 hf
    simp [analyze_dream_and_generate_image, hf, hne, hrun2]
  rw [h2step _ hfind2]
  exact findSession_update _ sid _ _ hfind2 rfl

/-- C7 witness: two committed runs on the concrete fresh session leave
exactly the one pair stored by the first run, with the dream text
unchanged. -/
theorem C7_two_successful_runs_one_pair_witness :
    findSession (analyze_dream_and_generate_image stubRetrievalEmpty stubLlmFull stubImgOk
        (analyze_dream_and_generate_image stubRetrievalEmpty stubLlmFull stubImgOk store3 3).1 3).1 3 =
      some ⟨3, "third dream", some fullAnalysisJobj, none,
        some [⟨"http://example.com/img.png", "http://example.com/img.png"⟩]⟩ :=
  C7_two_successful_runs_one_pair stubRetrievalEmpty stubRetrievalEmpty stubLlmFull stubLlmFull
    stubImgOk stubImgOk store3 3 sessFresh3 fullAnalysisJobj fullAnalysisJobj
    "http://example.com/img.png" "http://example.com/img.png"
    "http://example.com/img.png" "http://example.com/img.png"
    (by rfl) (by rfl) (by decide) (by rfl) (by rfl)

/-- C8 counterexample: a retrieval error (unreachable index) is caught
by `analyze_dream`'s blanket handler and re-raised as a
`ServiceException` — the interpretation stage fails rather than
degrading to an empty context. -/
theorem C8_counterexample :
    analyze_dream stubRetrievalDown stubLlmFull "a dream of the sea" =
      .error (Err.serviceError "Failed to analyze dream: Chroma index unreachable") := rfl

/-- C8 amended: when retrieval returns an empty chunk sequence (the
empty-index case), interpretation proceeds on the dream text with empty
context and the pipeline completes successfully (given a well-formed
model reply and image successes); but a retrieval call that raises
fails the whole stage with `ServiceException` — no graceful degradation
exists for retrieval errors. -/
theorem C8_empty_index_interpret_succeeds
    (retrieval : String → Except String (List String))
    (llm : String → List String → Except String Jobj)
    (imgCap : String → CapResult String)
    (dt : String) (d : Jobj) (u1 u2 : String)
    (hret : retrieval dt = .ok [])
    (hllm : llm dt [] = .ok d)
    (h1 : generate_image imgCap (pyGetPrompt d "image_prompt_original" (defaultOriginalPrompt dt)) = .ok u1)
    (h2 : generate_healing_image imgCap (pyGetPrompt d "image_prompt_healing" (defaultHealingPrompt dt)) = .ok u2) :
    run_analysis_and_image_stages retrieval llm imgCap dt = .ok (d, u1, u2) := by
  simp [run_analysis_and_image_stages, analyze_dream, analysis_chain, hret, hllm, h1, h2]

/-- C8 witness: the amended theorem at the empty-index retriever stub
with a well-formed model reply and succeeding image capability. -/
theorem C8_empty_index_interpret_succeeds_witness :
    run_analysis_and_image_stages stubRetrievalEmpty stubLlmFull stubImgOk "a sea dream" =
      .ok (fullAnalysisJobj, "http://example.com/img.png", "http://example.com/img.png") :=
  C8_empty_index_interpret_succeeds stubRetrievalEmpty stubLlmFull stubImgOk "a sea dream"
    fullAnalysisJobj "http://example.com/img.png" "http://example.com/img.png"
    (by rfl) (by rfl) (by rfl) (by rfl)

/-- C9 counterexample: re-interpreting a session that already holds an
analysis, a reframing and one image pair succeeds and commits the
overwritten analysis with the reframing untouched, but the stored
`generated_images` still holds only the old pair — the new pair the
route appends in place on the non-null JSON column is not flushed, so
nothing was durably appended, contrary to the claim. -/
theorem C9_counterexample :
    analyze_dream_and_generate_image stubRetrievalEmpty stubLlmFull stubImgOk store4 4 =
      ([⟨4, "fourth dream", some fullAnalysisJobj, some priorIrtJobj,
          some [⟨"http://example.com/old_o.png", "http://example.com/old_h.png"⟩]⟩],
       .ok ⟨4, fullAnalysisJobj, "http://example.com/img.png", "http://example.com/img.png"⟩) := rfl

/-- C9 amended: re-running the analyze route on a session that already
holds an analysis (and a reframing) commits a record whose
`analysis_results` is the new dict — replaced, not appended — and whose
`irt_results` (the reframing) is the untouched prior value; but the new
image pair is not durably appended: `generated_images` being already
non-null, the in-place append is an untracked JSON-column mutation
dropped at flush, so the stored list keeps its prior value. -/
theorem C9_reinterpret_overwrites_keeps_reframing
    (retrieval : String → Except String (List String))
    (llm : String → List String → Except String Jobj)
    (imgCap : String → CapResult String)
    (store : Store) (sid : Nat) (s : DreamSession)
    (a0 r aNew : Jobj) (prior : List ImagePair) (ourl hurl : String)
    (hfind : findSession store sid = some s)
    (_hprev : s.analysis_results = some a0)
    (hirt : s.irt_results = some r)
    (hprior : s.generated_images = some prior)
    (hne : s.dream_text ≠ "")
    (hrun : run_analysis_and_image_stages retrieval llm imgCap s.dream_text = .ok (aNew, ourl, hurl)) :
    findSession (analyze_dream_and_generate_image retrieval llm imgCap store sid).1 sid =
      some { s with analysis_results := some aNew, generated_images := some prior } ∧
    ({ s with
        analysis_results := some aNew,
        generated_images := some prior } : DreamSession).irt_results = some r := by
  refine ⟨?_, hirt⟩
  have hstep : (analyze_dream_and_generate_image retrieval llm imgCap store sid).1 =
      updateSession store { s with
        analysis_results := some aNew, generated_images := some prior } := by
    simp [analyze_dream_and_generate_image, hfind, hne, hrun, hprior]
  rw [hstep]
  exact findSession_update store sid s _ hfind rfl

/-- C9 witness: re-interpreting the already-interpreted-and-reframed
session overwrites the analysis, keeps the stored reframing, and leaves
`generated_images` exactly as it was. -/
theorem C9_reinterpret_overwrites_keeps_reframing_witness :
    findSession (analyze_dream_and_generate_image stubRetrievalEmpty stubLlmFull stubImgOk store4 4).1 4 =
      some ⟨4, "fourth dream", some fullAnalysisJobj, some priorIrtJobj,
        some [⟨"http://example.com/old_o.png", "http://example.com/old_h.png"⟩]⟩ ∧
    (⟨4, "fourth dream", some fullAnalysisJobj, some priorIrtJobj,
        some [⟨"http://example.com/old_o.png", "http://example.com/old_h.png"⟩]⟩ : DreamSession).irt_results =
      some priorIrtJobj :=
  C9_reinterpret_overwrites_keeps_reframing stubRetrievalEmpty stubLlmFull stubImgOk store4 4
    sessInterpreted4 priorAnalysisJobj priorIrtJobj fullAnalysisJobj
    [⟨"http://example.com/old_o.png", "http://example.com/old_h.png"⟩]
    "http://example.com/img.png" "http://example.com/img.png"
    (by rfl) (by rfl) (by rfl) (by rfl) (by decide) (by rfl)
